import Mathlib

/-!
Shallow embedding of the two Cognito provisioning scripts
`m2m_cognito_setup.py` and `user_cognito_setup.py`.

Every provider API call is modelled by an oracle field of type
`... → Except PyErr α`: the environment decides whether the call succeeds
(and with which response) or raises.  Each script function is translated
into a Lean function over such an oracle, returning its Python result
together with a trace of the provider calls made and the local files
written, so that control-flow and data-flow properties of the scripts can
be stated and proved.
-/

namespace CognitoSetup

/-- Exceptions of the Python scripts: `botocore` client errors carry a
structured (code, message) pair; `NameError` models a lookup of an unbound
global name; `other` covers every remaining exception class. -/
inductive PyErr where
  | clientError (code msg : String)
  | nameError (name : String)
  | other (msg : String)
deriving DecidableEq, Repr

/-! ## m2m_cognito_setup.py : configuration constants (lines 14-18) -/

def REGION : String := "us-west-2"

def POOL_NAME : String := "M2MUserPool"

def RESOURCE_SERVER_IDENTIFIER : String := "https://api.myapp.com"

def RESOURCE_SERVER_NAME : String := "MyApp API"

def CLIENT_NAME : String := "M2MClient"

/-- The part of the `create_user_pool` response the script reads:
the `UserPool.Id` field of the response. -/
structure UserPoolResp where
  id : String
deriving DecidableEq, Repr

/-- The part of the `create_resource_server` response the script reads:
the `ResourceServer.Identifier` field of the response. -/
structure ResourceServerResp where
  identifier : String
deriving DecidableEq, Repr

/-- The part of the `create_user_pool_client` response the script reads:
`ClientId` and `ClientSecret` under `UserPoolClient`. -/
structure ClientResp where
  clientId : String
  clientSecret : String
deriving DecidableEq, Repr

/-- The full keyword-argument record passed to `create_user_pool_client`
in the m2m script (lines 74-87). -/
structure ClientParams where
  userPoolId : String
  clientName : String
  generateSecret : Bool
  explicitAuthFlows : List String
  supportedIdentityProviders : List String
  allowedOAuthFlows : List String
  allowedOAuthScopes : List String
  allowedOAuthFlowsUserPoolClient : Bool
deriving DecidableEq, Repr

/-- The consolidated credentials document written to
`m2m_credentials.json` (lines 148-159). -/
structure M2MCredentials where
  userPoolId : String
  resourceServerId : String
  clientId : String
  clientSecret : String
  region : String
  scopes : List String
deriving DecidableEq, Repr

/-- The dictionary returned by `create_m2m_pool` on success
(lines 168-174). -/
structure M2MResult where
  pool_id : String
  client_id : String
  client_secret : String
  domain_name : String
  resource_server_id : String
deriving DecidableEq, Repr

/-- Observable events of a `create_m2m_pool` run: each provider call made
(with the arguments the script passes) and each local file written (with
the serialized content). -/
inductive M2MEvent where
  | callCreateUserPool (poolName : String) (minLength : Nat)
  | writeFilePool (resp : UserPoolResp)
  | callCreateResourceServer (poolId identifier name : String)
      (scopes : List (String × String))
  | writeFileResourceServer (resp : ResourceServerResp)
  | callCreateUserPoolClient (params : ClientParams)
  | writeFileM2MClient (resp : ClientResp)
  | callCreateUserPoolDomain (domain poolId : String)
  | callAdminCreateUser (poolId username tempPassword : String)
  | callAdminSetUserPassword (poolId username password : String) (permanent : Bool)
  | writeFileM2MCredentials (c : M2MCredentials)
deriving DecidableEq, Repr

/-- Oracle for the provider calls of the m2m script.  `timeSuffix` models
the time-derived string `str(int(time.time()))[-5:]` used for the domain
name. -/
structure M2MOracle where
  createUserPool : String → Nat → Except PyErr UserPoolResp
  createResourceServer : String → String → String → List (String × String) →
      Except PyErr ResourceServerResp
  createUserPoolClient : ClientParams → Except PyErr ClientResp
  createUserPoolDomain : String → String → Except PyErr Unit
  adminCreateUser : String → String → String → Except PyErr Unit
  adminSetUserPassword : String → String → String → Bool → Except PyErr Unit
  timeSuffix : String

/-- The three scope (name, description) pairs declared on the resource
server (lines 49-62). -/
def m2mScopeDefs : List (String × String) :=
  [("read", "Read access to API resources"),
   ("write", "Write access to API resources"),
   ("admin", "Administrative access to API resources")]

/-- The keyword arguments of the `create_user_pool_client` call in the m2m
script, as a function of the pool id (lines 74-87). -/
def m2mClientParams (pool_id : String) : ClientParams :=
  { userPoolId := pool_id
    clientName := CLIENT_NAME
    generateSecret := true
    explicitAuthFlows := ["ALLOW_ADMIN_USER_PASSWORD_AUTH"]
    supportedIdentityProviders := ["COGNITO"]
    allowedOAuthFlows := ["client_credentials"]
    allowedOAuthScopes :=
      [RESOURCE_SERVER_IDENTIFIER ++ "/read",
       RESOURCE_SERVER_IDENTIFIER ++ "/write",
       RESOURCE_SERVER_IDENTIFIER ++ "/admin"]
    allowedOAuthFlowsUserPoolClient := true }

/-- Step 4 of `create_m2m_pool` (lines 101-111): the domain-creation call
wrapped in its own try/except.  A `ClientError` whose code is
`InvalidParameterException` is tolerated; any other exception is re-raised.
Returns the outcome of the block plus the call event. -/
def create_domain_step (o : M2MOracle) (domain_name pool_id : String) :
    Except PyErr Unit × List M2MEvent :=
  (match o.createUserPoolDomain domain_name pool_id with
   | Except.ok _ => Except.ok ()
   | Except.error (PyErr.clientError code msg) =>
       if code = "InvalidParameterException" then Except.ok ()
       else Except.error (PyErr.clientError code msg)
   | Except.error e => Except.error e,
   [M2MEvent.callCreateUserPoolDomain domain_name pool_id])

/-- Step 5 of `create_m2m_pool` (lines 113-135): create the test user and
set its permanent password, inside one try/except that tolerates a
`ClientError` with code `UsernameExistsException` and re-raises anything
else.  Returns the outcome of the block plus the call events. -/
def create_test_user_step (o : M2MOracle) (pool_id : String) :
    Except PyErr Unit × List M2MEvent :=
  match o.adminCreateUser pool_id "m2m-test-user" "TempPass123!" with
  | Except.ok _ =>
      (match o.adminSetUserPassword pool_id "m2m-test-user" "TestPass123!" true with
       | Except.ok _ => Except.ok ()
       | Except.error (PyErr.clientError code msg) =>
           if code = "UsernameExistsException" then Except.ok ()
           else Except.error (PyErr.clientError code msg)
       | Except.error e => Except.error e,
       [M2MEvent.callAdminCreateUser pool_id "m2m-test-user" "TempPass123!",
        M2MEvent.callAdminSetUserPassword pool_id "m2m-test-user" "TestPass123!" true])
  | Except.error (PyErr.clientError code msg) =>
      (if code = "UsernameExistsException" then Except.ok ()
       else Except.error (PyErr.clientError code msg),
       [M2MEvent.callAdminCreateUser pool_id "m2m-test-user" "TempPass123!"])
  | Except.error e =>
      (Except.error e,
       [M2MEvent.callAdminCreateUser pool_id "m2m-test-user" "TempPass123!"])

/-- Translation of `create_m2m_pool` (lines 20-181).  The whole body sits inside a
try/except that catches both `ClientError` and generic exceptions and
returns `None`, so the Lean translation returns `none` whenever an
untolerated error is raised; on success it returns the result dictionary.
The second component is the trace of provider calls and file writes. -/
def create_m2m_pool (o : M2MOracle) : Option M2MResult × List M2MEvent :=
  let t0 := [M2MEvent.callCreateUserPool POOL_NAME 8]
  match o.createUserPool POOL_NAME 8 with
  | Except.error _ => (none, t0)
  | Except.ok poolResp =>
    let pool_id := poolResp.id
    let t1 := t0 ++ [M2MEvent.writeFilePool poolResp]
    let t1c := t1 ++ [M2MEvent.callCreateResourceServer pool_id
        RESOURCE_SERVER_IDENTIFIER RESOURCE_SERVER_NAME m2mScopeDefs]
    match o.createResourceServer pool_id RESOURCE_SERVER_IDENTIFIER
        RESOURCE_SERVER_NAME m2mScopeDefs with
    | Except.error _ => (none, t1c)
    | Except.ok rsResp =>
      let resource_server_id := rsResp.identifier
      let t2 := t1c ++ [M2MEvent.writeFileResourceServer rsResp]
      let t2c := t2 ++ [M2MEvent.callCreateUserPoolClient (m2mClientParams pool_id)]
      match o.createUserPoolClient (m2mClientParams pool_id) with
      | Except.error _ => (none, t2c)
      | Except.ok cResp =>
        let client_id := cResp.clientId
        let client_secret := cResp.clientSecret
        let t3 := t2c ++ [M2MEvent.writeFileM2MClient cResp]
        let domain_name := "m2m-domain-" ++ o.timeSuffix
        match create_domain_step o domain_name pool_id with
        | (Except.error _, td) => (none, t3 ++ td)
        | (Except.ok _, td) =>
          let t4 := t3 ++ td
          match create_test_user_step o pool_id with
          | (Except.error _, tu) => (none, t4 ++ tu)
          | (Except.ok _, tu) =>
            let t5 := t4 ++ tu
            let credentials : M2MCredentials :=
              { userPoolId := pool_id
                resourceServerId := resource_server_id
                clientId := client_id
                clientSecret := client_secret
                region := REGION
                scopes :=
                  [RESOURCE_SERVER_IDENTIFIER ++ "/read",
                   RESOURCE_SERVER_IDENTIFIER ++ "/write",
                   RESOURCE_SERVER_IDENTIFIER ++ "/admin"] }
            let t6 := t5 ++ [M2MEvent.writeFileM2MCredentials credentials]
            (some { pool_id := pool_id
                    client_id := client_id
                    client_secret := client_secret
                    domain_name := domain_name
                    resource_server_id := resource_server_id }, t6)

/-! ## user_cognito_setup.py -/

/-- The inputs of `get_aws_region` (lines 13-29): the value of
the `AWS_REGION` environment variable as read by `os.environ.get` and the outcome of reading
`boto3.Session().region_name` (which may raise, or yield `None` or a
string). -/
structure RegionEnv where
  awsRegion : Option String
  sessionRegion : Except PyErr (Option String)

/-- The observable outcome of `get_aws_region`: the returned region string
and whether the default-region warning was printed. -/
structure RegionResult where
  region : String
  warned : Bool
deriving DecidableEq, Repr

/-- Python truthiness of an optional string: `None` and the empty string
are falsy. -/
def pyTruthy : Option String → Bool
  | none => false
  | some s => !(s == "")

/-- Translation of `get_aws_region` (lines 13-29): prefer the environment variable; if it
is falsy, try the session region (a raising session lookup is caught and
ignored); if the result is still falsy, fall back to `us-east-1` with a
warning.  The `Except` result type records that the function, like any
Python function, may in principle raise; the theorems show it never
does. -/
def get_aws_region (e : RegionEnv) : Except PyErr RegionResult :=
  let region := e.awsRegion
  let region :=
    if pyTruthy region then region
    else
      match e.sessionRegion with
      | Except.ok r => r
      | Except.error _ => region
  if pyTruthy region then Except.ok { region := region.getD "", warned := false }
  else Except.ok { region := "us-east-1", warned := true }

/-- Observable provider-call events of a `create_spa_pool` run, with the
arguments the script passes. -/
inductive SpaEvent where
  | callCreateUserPool (poolName : String) (minLength : Nat)
  | callCreateUserPoolClient (poolId clientName : String) (generateSecret : Bool)
      (explicitAuthFlows : List String)
  | callAdminCreateUser (poolId username tempPassword : String)
  | callAdminSetUserPassword (poolId username password : String) (permanent : Bool)
  | callInitiateAuth (clientId username password : String)
deriving DecidableEq, Repr

/-- Oracle for the provider calls of the user-pool script.  Each field
yields the piece of the response the script reads (pool id, client id,
access token) or raises. -/
structure SpaOracle where
  createUserPool : String → Nat → Except PyErr String
  createUserPoolClient : String → String → Bool → List String → Except PyErr String
  adminCreateUser : String → String → String → Except PyErr Unit
  adminSetUserPassword : String → String → String → Bool → Except PyErr Unit
  initiateAuth : String → String → String → Except PyErr String

/-- Translation of `create_user_pool` (lines 32-50): create the pool with a minimum
password length of 8 and return the `UserPool.Id` field of the response; a
`ClientError` is printed and re-raised, so it passes through. -/
def create_user_pool (o : SpaOracle) (pool_name : String) :
    Except PyErr String × List SpaEvent :=
  (o.createUserPool pool_name 8, [SpaEvent.callCreateUserPool pool_name 8])

/-- Translation of `create_app_client` (lines 53-72): create a public client with the two
password/refresh auth flows and return its id; errors are re-raised. -/
def create_app_client (o : SpaOracle) (pool_id client_name : String) :
    Except PyErr String × List SpaEvent :=
  (o.createUserPoolClient pool_id client_name false
     ["ALLOW_USER_PASSWORD_AUTH", "ALLOW_REFRESH_TOKEN_AUTH"],
   [SpaEvent.callCreateUserPoolClient pool_id client_name false
     ["ALLOW_USER_PASSWORD_AUTH", "ALLOW_REFRESH_TOKEN_AUTH"]])

/-- Translation of `create_user` (lines 75-98): create the user with a temporary
password, then set the permanent password; errors are re-raised (no
tolerance in this script).  The Python defaults are
`temp_password="Temp123!"` and `permanent_password="MyPassword123!"`;
`create_spa_pool` passes them implicitly, the Lean callers pass them
explicitly. -/
def create_user (o : SpaOracle)
    (pool_id username temp_password permanent_password : String) :
    Except PyErr Unit × List SpaEvent :=
  match o.adminCreateUser pool_id username temp_password with
  | Except.error e =>
      (Except.error e, [SpaEvent.callAdminCreateUser pool_id username temp_password])
  | Except.ok _ =>
      (o.adminSetUserPassword pool_id username permanent_password true,
       [SpaEvent.callAdminCreateUser pool_id username temp_password,
        SpaEvent.callAdminSetUserPassword pool_id username permanent_password true])

/-- Translation of `authenticate_user` (lines 101-119): `USER_PASSWORD_AUTH` flow, the
Python default password is `"MyPassword123!"`; returns
the `AuthenticationResult.AccessToken` field of the response; errors re-raised. -/
def authenticate_user (o : SpaOracle) (client_id username password : String) :
    Except PyErr String × List SpaEvent :=
  (o.initiateAuth client_id username password,
   [SpaEvent.callInitiateAuth client_id username password])

/-- A username/password pair of the returned configuration record. -/
structure SpaUser where
  username : String
  password : String
deriving DecidableEq, Repr

/-- The configuration dictionary returned by `create_spa_pool` on success
(lines 154-165).  The `access_tokens` sub-dictionary has the two fixed
keys `testuser1` and `testuser2`, modelled as two fields. -/
structure SpaRecord where
  pool_id : String
  client_id : String
  discovery_url : String
  region : String
  user1 : SpaUser
  user2 : SpaUser
  access_token_testuser1 : String
  access_token_testuser2 : String
deriving DecidableEq, Repr

/-- Translation of `create_spa_pool` (lines 122-169): resolve the region, then run the
pipeline pool → client → testuser1 (create, authenticate) → testuser2
(create, authenticate) → discovery URL → aggregate record.  The outer
try/except prints and re-raises, so every failure propagates as an
error result and no record is returned. -/
def create_spa_pool (renv : RegionEnv) (o : SpaOracle) :
    Except PyErr SpaRecord × List SpaEvent :=
  match get_aws_region renv with
  | Except.error e => (Except.error e, [])
  | Except.ok rr =>
    let region := rr.region
    match create_user_pool o "DemoUserPool" with
    | (Except.error e, t1) => (Except.error e, t1)
    | (Except.ok pool_id, t1) =>
      match create_app_client o pool_id "DemoClient" with
      | (Except.error e, t2) => (Except.error e, t1 ++ t2)
      | (Except.ok client_id, t2) =>
        match create_user o pool_id "testuser1" "Temp123!" "MyPassword123!" with
        | (Except.error e, t3) => (Except.error e, t1 ++ t2 ++ t3)
        | (Except.ok _, t3) =>
          match authenticate_user o client_id "testuser1" "MyPassword123!" with
          | (Except.error e, t4) => (Except.error e, t1 ++ t2 ++ t3 ++ t4)
          | (Except.ok access_token_1, t4) =>
            match create_user o pool_id "testuser2" "Temp123!" "MyPassword123!" with
            | (Except.error e, t5) => (Except.error e, t1 ++ t2 ++ t3 ++ t4 ++ t5)
            | (Except.ok _, t5) =>
              match authenticate_user o client_id "testuser2" "MyPassword123!" with
              | (Except.error e, t6) =>
                  (Except.error e, t1 ++ t2 ++ t3 ++ t4 ++ t5 ++ t6)
              | (Except.ok access_token_2, t6) =>
                let discovery_url := "https://cognito-idp." ++ region ++
                    ".amazonaws.com/" ++ pool_id ++
                    "/.well-known/openid-configuration"
                (Except.ok
                   { pool_id := pool_id
                     client_id := client_id
                     discovery_url := discovery_url
                     region := region
                     user1 := { username := "testuser1", password := "MyPassword123!" }
                     user2 := { username := "testuser2", password := "MyPassword123!" }
                     access_token_testuser1 := access_token_1
                     access_token_testuser2 := access_token_2 },
                 t1 ++ t2 ++ t3 ++ t4 ++ t5 ++ t6)

/-- The global names bound in the module namespace of
`user_cognito_setup.py` when the `if __name__ == "__main__"` guard at
lines 172-173 executes: the three imported modules, the imported
exception class, and the five functions the module defines. -/
def userSetupGlobals : List String :=
  ["boto3", "json", "os", "ClientError",
   "get_aws_region", "create_user_pool", "create_app_client",
   "create_user", "authenticate_user", "create_spa_pool"]

/-- The name the top-level statement `config = main()` (line 173) looks up
in the module globals before calling it. -/
def userSetupCallTarget : String := "main"

/-- Translation of the `__main__` block of `user_cognito_setup.py` (lines 172-173).  It
executes `config = main()`: Python resolves the name `main` in the module
globals; if the name is bound the setup procedure runs, otherwise the
statement raises `NameError` before any provider call is made. -/
def user_setup_main_block (renv : RegionEnv) (o : SpaOracle) :
    Except PyErr SpaRecord × List SpaEvent :=
  if userSetupCallTarget ∈ userSetupGlobals then create_spa_pool renv o
  else (Except.error (PyErr.nameError userSetupCallTarget), [])

/-! ## Theorems -/

/-- Helper: a truthy optional string is a nonempty string, so extracting
it with `getD` gives a nonempty string. -/
theorem pyTruthy_getD {o : Option String} (h : pyTruthy o = true) :
    o.getD "" ≠ "" := by
  cases o with
  | none => simp [pyTruthy] at h
  | some s =>
      simp only [pyTruthy, Bool.not_eq_true'] at h
      simpa using h

/-- C1: the `__main__` block of user_cognito_setup.py does NOT run
`create_spa_pool`: line 173 calls `main()`, a name bound nowhere in the
module, so for every environment and every oracle the block raises
`NameError` immediately, with no provider call made.  (The process does
terminate with a non-zero status, but from the unbound-name error, not
from a failure of the setup procedure, which never runs.) -/
theorem user_setup_main_block_raises_nameError
    (renv : RegionEnv) (o : SpaOracle) :
    user_setup_main_block renv o =
      (Except.error (PyErr.nameError "main"), ([] : List SpaEvent)) := by
  unfold user_setup_main_block
  rw [if_neg (by decide)]
  rfl

/-- C7: `get_aws_region` prefers a non-empty environment override over the
session region, prefers an available (non-raising, non-empty) session
region over the default, and on the default path returns `us-east-1` with
the warning emitted. -/
theorem get_aws_region_preference (e : RegionEnv) :
    (∀ s, e.awsRegion = some s → s ≠ "" →
        get_aws_region e = Except.ok { region := s, warned := false }) ∧
    ((e.awsRegion = none ∨ e.awsRegion = some "") →
      ∀ s, e.sessionRegion = Except.ok (some s) → s ≠ "" →
        get_aws_region e = Except.ok { region := s, warned := false }) ∧
    ((e.awsRegion = none ∨ e.awsRegion = some "") →
      ((∃ err, e.sessionRegion = Except.error err) ∨
        e.sessionRegion = Except.ok none ∨ e.sessionRegion = Except.ok (some "")) →
      get_aws_region e = Except.ok { region := "us-east-1", warned := true }) := by
  refine ⟨?_, ?_, ?_⟩
  · intro s hs hne
    simp [get_aws_region, hs, pyTruthy, hne]
  · intro henv s hsess hne
    rcases henv with h | h <;>
      simp [get_aws_region, h, hsess, pyTruthy, hne]
  · intro henv hsess
    rcases hsess with ⟨err, herr⟩ | hnone | hempty
    · rcases henv with h | h <;>
        simp [get_aws_region, h, herr, pyTruthy]
    · rcases henv with h | h <;>
        simp [get_aws_region, h, hnone, pyTruthy]
    · rcases henv with h | h <;>
        simp [get_aws_region, h, hempty, pyTruthy]

/-- Witness for C7: concrete environments exercising all three preference
levels. -/
theorem get_aws_region_preference_witness :
    get_aws_region { awsRegion := some "eu-west-1",
                     sessionRegion := Except.ok (some "ap-south-1") } =
      Except.ok { region := "eu-west-1", warned := false } ∧
    get_aws_region { awsRegion := none,
                     sessionRegion := Except.ok (some "ap-south-1") } =
      Except.ok { region := "ap-south-1", warned := false } ∧
    get_aws_region { awsRegion := some "",
                     sessionRegion := Except.error (PyErr.other "no credentials") } =
      Except.ok { region := "us-east-1", warned := true } :=
  ⟨(get_aws_region_preference _).1 "eu-west-1" rfl (by decide),
   (get_aws_region_preference _).2.1 (Or.inl rfl) "ap-south-1" rfl (by decide),
   (get_aws_region_preference _).2.2 (Or.inr rfl) (Or.inl ⟨_, rfl⟩)⟩

/-- Helper: `get_aws_region` always yields an `ok` result carrying a
non-empty region string. -/
theorem get_aws_region_total_aux (e : RegionEnv) :
    ∃ r, get_aws_region e = Except.ok r ∧ r.region ≠ "" := by
  obtain ⟨a, sr⟩ := e
  by_cases ha : pyTruthy a = true
  · exact ⟨{ region := a.getD "", warned := false },
      by simp [get_aws_region, ha], pyTruthy_getD ha⟩
  · have ha2 : pyTruthy a = false := by simpa using ha
    cases sr with
    | error err =>
        exact ⟨{ region := "us-east-1", warned := true },
          by simp [get_aws_region, ha2], by decide⟩
    | ok r =>
        by_cases hr : pyTruthy r = true
        · exact ⟨{ region := r.getD "", warned := false },
            by simp [get_aws_region, ha2, hr], pyTruthy_getD hr⟩
        · have hr2 : pyTruthy r = false := by simpa using hr
          exact ⟨{ region := "us-east-1", warned := true },
            by simp [get_aws_region, ha2, hr2], by decide⟩

/-- C9: `get_aws_region` is total at its public interface: for every
environment/session state — unset or empty `AWS_REGION`, a session with
no configured region, a raising session lookup — it never raises (always
an `ok` result) and the returned region string is non-empty. -/
theorem get_aws_region_never_raises (e : RegionEnv) :
    ∃ r, get_aws_region e = Except.ok r ∧ r.region ≠ "" :=
  get_aws_region_total_aux e

/-- Helper: the domain step always logs exactly its one provider call. -/
theorem create_domain_step_trace (o : M2MOracle) (dn pid : String) :
    (create_domain_step o dn pid).2 = [M2MEvent.callCreateUserPoolDomain dn pid] := rfl

/-- Helper: the test-user step never writes the credentials file. -/
theorem create_test_user_step_no_write (o : M2MOracle) (pid : String)
    (c : M2MCredentials) :
    M2MEvent.writeFileM2MCredentials c ∉ (create_test_user_step o pid).2 := by
  unfold create_test_user_step
  split <;> simp

/-- C3: a provider error during domain creation whose code is not
`InvalidParameterException` aborts the run: `create_m2m_pool` returns
`none` (and, being a total function into `Option`, propagates no
exception to its caller). -/
theorem create_m2m_pool_domain_error_aborts
    (o : M2MOracle) (poolResp : UserPoolResp) (rsResp : ResourceServerResp)
    (cResp : ClientResp) (code msg : String)
    (h1 : o.createUserPool POOL_NAME 8 = Except.ok poolResp)
    (h2 : o.createResourceServer poolResp.id RESOURCE_SERVER_IDENTIFIER
        RESOURCE_SERVER_NAME m2mScopeDefs = Except.ok rsResp)
    (h3 : o.createUserPoolClient (m2mClientParams poolResp.id) = Except.ok cResp)
    (h4 : o.createUserPoolDomain ("m2m-domain-" ++ o.timeSuffix) poolResp.id =
        Except.error (PyErr.clientError code msg))
    (h5 : code ≠ "InvalidParameterException") :
    (create_m2m_pool o).1 = none := by
  simp only [create_m2m_pool, create_domain_step, h1, h2, h3, h4]
  rw [if_neg h5]

/-- C4: if domain creation fails with `InvalidParameterException` while
every other provider call succeeds, the run still reaches and completes
the test-user-creation step (both of its calls appear in the trace) and
returns a non-`none` result. -/
theorem create_m2m_pool_domain_invalid_param_tolerated
    (o : M2MOracle) (poolResp : UserPoolResp) (rsResp : ResourceServerResp)
    (cResp : ClientResp) (msg : String)
    (h1 : o.createUserPool POOL_NAME 8 = Except.ok poolResp)
    (h2 : o.createResourceServer poolResp.id RESOURCE_SERVER_IDENTIFIER
        RESOURCE_SERVER_NAME m2mScopeDefs = Except.ok rsResp)
    (h3 : o.createUserPoolClient (m2mClientParams poolResp.id) = Except.ok cResp)
    (h4 : o.createUserPoolDomain ("m2m-domain-" ++ o.timeSuffix) poolResp.id =
        Except.error (PyErr.clientError "InvalidParameterException" msg))
    (h5 : o.adminCreateUser poolResp.id "m2m-test-user" "TempPass123!" =
        Except.ok ())
    (h6 : o.adminSetUserPassword poolResp.id "m2m-test-user" "TestPass123!" true =
        Except.ok ()) :
    (∃ r, (create_m2m_pool o).1 = some r) ∧
    M2MEvent.callAdminCreateUser poolResp.id "m2m-test-user" "TempPass123!" ∈
      (create_m2m_pool o).2 ∧
    M2MEvent.callAdminSetUserPassword poolResp.id "m2m-test-user" "TestPass123!" true ∈
      (create_m2m_pool o).2 := by
  simp only [create_m2m_pool, create_domain_step, create_test_user_step,
    h1, h2, h3, h4, h5, h6, if_pos rfl]
  refine ⟨⟨_, rfl⟩, ?_, ?_⟩ <;> simp

/-- C5: if test-user creation fails with `UsernameExistsException` while
every other provider call succeeds, the run still reaches the final
consolidated-credentials file write and returns a non-`none` result. -/
theorem create_m2m_pool_username_exists_tolerated
    (o : M2MOracle) (poolResp : UserPoolResp) (rsResp : ResourceServerResp)
    (cResp : ClientResp) (msg : String)
    (h1 : o.createUserPool POOL_NAME 8 = Except.ok poolResp)
    (h2 : o.createResourceServer poolResp.id RESOURCE_SERVER_IDENTIFIER
        RESOURCE_SERVER_NAME m2mScopeDefs = Except.ok rsResp)
    (h3 : o.createUserPoolClient (m2mClientParams poolResp.id) = Except.ok cResp)
    (h4 : o.createUserPoolDomain ("m2m-domain-" ++ o.timeSuffix) poolResp.id =
        Except.ok ())
    (h5 : o.adminCreateUser poolResp.id "m2m-test-user" "TempPass123!" =
        Except.error (PyErr.clientError "UsernameExistsException" msg)) :
    (∃ r, (create_m2m_pool o).1 = some r) ∧
    ∃ c, M2MEvent.writeFileM2MCredentials c ∈ (create_m2m_pool o).2 := by
  simp [create_m2m_pool, create_domain_step, create_test_user_step,
    h1, h2, h3, h4, h5]

/-- Helper: every successful `create_m2m_pool` run arises from successful
pool, resource-server and client calls, the returned record is built from
exactly those responses, and the single credentials document written
carries those same values. -/
theorem create_m2m_pool_success_inv (o : M2MOracle) (r : M2MResult)
    (evs : List M2MEvent)
    (hrun : create_m2m_pool o = (some r, evs)) :
    ∃ poolResp rsResp cResp,
      o.createUserPool POOL_NAME 8 = Except.ok poolResp ∧
      o.createResourceServer poolResp.id RESOURCE_SERVER_IDENTIFIER
          RESOURCE_SERVER_NAME m2mScopeDefs = Except.ok rsResp ∧
      o.createUserPoolClient (m2mClientParams poolResp.id) = Except.ok cResp ∧
      r = { pool_id := poolResp.id, client_id := cResp.clientId,
            client_secret := cResp.clientSecret,
            domain_name := "m2m-domain-" ++ o.timeSuffix,
            resource_server_id := rsResp.identifier } ∧
      (∀ c, M2MEvent.writeFileM2MCredentials c ∈ evs →
          c = { userPoolId := poolResp.id, resourceServerId := rsResp.identifier,
                clientId := cResp.clientId, clientSecret := cResp.clientSecret,
                region := REGION,
                scopes := [RESOURCE_SERVER_IDENTIFIER ++ "/read",
                           RESOURCE_SERVER_IDENTIFIER ++ "/write",
                           RESOURCE_SERVER_IDENTIFIER ++ "/admin"] }) ∧
      M2MEvent.writeFileM2MCredentials
          { userPoolId := poolResp.id, resourceServerId := rsResp.identifier,
            clientId := cResp.clientId, clientSecret := cResp.clientSecret,
            region := REGION,
            scopes := [RESOURCE_SERVER_IDENTIFIER ++ "/read",
                       RESOURCE_SERVER_IDENTIFIER ++ "/write",
                       RESOURCE_SERVER_IDENTIFIER ++ "/admin"] } ∈ evs := by
  simp only [create_m2m_pool] at hrun
  split at hrun
  · simp at hrun
  next poolResp h1 =>
    split at hrun
    · simp at hrun
    next rsResp h2 =>
      split at hrun
      · simp at hrun
      next cResp h3 =>
        split at hrun
        next e td hd => simp at hrun
        next u td hd =>
          split at hrun
          next e tu hu => simp at hrun
          next u2 tu hu =>
            obtain ⟨hr, hevs⟩ := Prod.mk.injEq .. ▸ hrun
            have htd : td = [M2MEvent.callCreateUserPoolDomain
                ("m2m-domain-" ++ o.timeSuffix) poolResp.id] := by
              have h0 := create_domain_step_trace o
                ("m2m-domain-" ++ o.timeSuffix) poolResp.id
              rw [hd] at h0
              exact h0
            have htu : ∀ c : M2MCredentials,
                M2MEvent.writeFileM2MCredentials c ∉ tu := by
              intro c hc
              have h0 := create_test_user_step_no_write o poolResp.id c
              rw [hu] at h0
              exact h0 hc
            subst hevs
            subst htd
            refine ⟨poolResp, rsResp, cResp, h1, h2, h3,
              (Option.some.inj hr).symm, ?_, ?_⟩
            · intro c hc
              simp only [List.mem_append, List.mem_singleton] at hc
              rcases hc with ((((((((hc | hc) | hc) | hc) | hc) | hc) | hc) | hc) | hc)
              · exact absurd hc (by simp)
              · exact absurd hc (by simp)
              · exact absurd hc (by simp)
              · exact absurd hc (by simp)
              · exact absurd hc (by simp)
              · exact absurd hc (by simp)
              · exact absurd hc (by simp)
              · exact absurd hc (htu c)
              · exact (M2MEvent.writeFileM2MCredentials.injEq .. ▸ hc)
            · simp

/-- C2: for every successful `create_m2m_pool` run — under the
create-resource-server API contract that the response echoes the
requested identifier — the `resource_server_id` field of the returned record is
exactly `https://api.myapp.com`, and the `scopes` array written to the
consolidated credentials document is exactly the three fully-qualified
scope strings in read, write, admin order. -/
theorem create_m2m_pool_resource_server_and_scopes
    (o : M2MOracle) (r : M2MResult) (evs : List M2MEvent)
    (hecho : ∀ pid resp, o.createResourceServer pid RESOURCE_SERVER_IDENTIFIER
        RESOURCE_SERVER_NAME m2mScopeDefs = Except.ok resp →
        resp.identifier = RESOURCE_SERVER_IDENTIFIER)
    (hrun : create_m2m_pool o = (some r, evs)) :
    r.resource_server_id = "https://api.myapp.com" ∧
    ∃ c, M2MEvent.writeFileM2MCredentials c ∈ evs ∧
      c.scopes = ["https://api.myapp.com/read", "https://api.myapp.com/write",
                  "https://api.myapp.com/admin"] := by
  obtain ⟨poolResp, rsResp, cResp, h1, h2, h3, hr, hall, hmem⟩ :=
    create_m2m_pool_success_inv o r evs hrun
  have hid := hecho poolResp.id rsResp h2
  constructor
  · rw [hr]
    simpa [RESOURCE_SERVER_IDENTIFIER] using hid
  · exact ⟨_, hmem, by simp [RESOURCE_SERVER_IDENTIFIER]⟩

/-- C8: for every successful `create_m2m_pool` run, the client id and
client secret captured from the create-client response appear unchanged
in the returned record and in every consolidated credentials document
written during the run. -/
theorem create_m2m_pool_client_roundtrip
    (o : M2MOracle) (r : M2MResult) (evs : List M2MEvent)
    (hrun : create_m2m_pool o = (some r, evs)) :
    ∃ cResp, o.createUserPoolClient (m2mClientParams r.pool_id) = Except.ok cResp ∧
      r.client_id = cResp.clientId ∧ r.client_secret = cResp.clientSecret ∧
      ∀ c, M2MEvent.writeFileM2MCredentials c ∈ evs →
        c.clientId = cResp.clientId ∧ c.clientSecret = cResp.clientSecret := by
  obtain ⟨poolResp, rsResp, cResp, h1, h2, h3, hr, hall, hmem⟩ :=
    create_m2m_pool_success_inv o r evs hrun
  subst hr
  exact ⟨cResp, h3, rfl, rfl, fun c hc => by rw [hall c hc]; exact ⟨rfl, rfl⟩⟩

/-- Helper: when `create_user` returns successfully, its trace is exactly
the user-creation call followed by the set-password call. -/
theorem create_user_ok_trace (o : SpaOracle) (pid un tp pp : String) (u : Unit)
    (t : List SpaEvent) (h : create_user o pid un tp pp = (Except.ok u, t)) :
    t = [SpaEvent.callAdminCreateUser pid un tp,
         SpaEvent.callAdminSetUserPassword pid un pp true] := by
  unfold create_user at h
  split at h
  · simp at h
  · obtain ⟨h1, h2⟩ := Prod.mk.injEq .. ▸ h
    exact h2.symm

/-- C6: if every step through the authentication of testuser1 succeeds
and then creating testuser2 fails, or creating testuser2 succeeds and
authenticating testuser2 fails, `create_spa_pool` returns an error
result: no aggregate record — in particular none containing the
already-obtained testuser1 access token — is produced. -/
theorem create_spa_pool_testuser2_failure_aborts
    (renv : RegionEnv) (o : SpaOracle) (pool_id client_id tok1 : String)
    (h1 : o.createUserPool "DemoUserPool" 8 = Except.ok pool_id)
    (h2 : o.createUserPoolClient pool_id "DemoClient" false
        ["ALLOW_USER_PASSWORD_AUTH", "ALLOW_REFRESH_TOKEN_AUTH"] =
        Except.ok client_id)
    (h3 : o.adminCreateUser pool_id "testuser1" "Temp123!" = Except.ok ())
    (h4 : o.adminSetUserPassword pool_id "testuser1" "MyPassword123!" true =
        Except.ok ())
    (h5 : o.initiateAuth client_id "testuser1" "MyPassword123!" = Except.ok tok1)
    (h6 : ∃ e, (create_user o pool_id "testuser2" "Temp123!" "MyPassword123!").1 =
            Except.error e ∨
          ((create_user o pool_id "testuser2" "Temp123!" "MyPassword123!").1 =
            Except.ok () ∧
           o.initiateAuth client_id "testuser2" "MyPassword123!" = Except.error e)) :
    ∃ e2, (create_spa_pool renv o).1 = Except.error e2 := by
  obtain ⟨rr, hreg, _⟩ := get_aws_region_total_aux renv
  have hcu1 : create_user o pool_id "testuser1" "Temp123!" "MyPassword123!" =
      (Except.ok (), [SpaEvent.callAdminCreateUser pool_id "testuser1" "Temp123!",
        SpaEvent.callAdminSetUserPassword pool_id "testuser1" "MyPassword123!" true]) := by
    simp [create_user, h3, h4]
  rcases h6 with ⟨e, h6a | ⟨h6b, h6c⟩⟩
  · rcases hcu : create_user o pool_id "testuser2" "Temp123!" "MyPassword123!" with ⟨cres, ct⟩
    rw [hcu] at h6a
    dsimp only at h6a
    subst h6a
    refine ⟨e, ?_⟩
    simp only [create_spa_pool, hreg, create_user_pool, h1, create_app_client, h2,
      hcu1, authenticate_user, h5, hcu]
  · rcases hcu : create_user o pool_id "testuser2" "Temp123!" "MyPassword123!" with ⟨cres, ct⟩
    rw [hcu] at h6b
    dsimp only at h6b
    subst h6b
    refine ⟨e, ?_⟩
    simp only [create_spa_pool, hreg, create_user_pool, h1, create_app_client, h2,
      hcu1, authenticate_user, h5, hcu, h6c]

/-- C10: in every successful `create_spa_pool` run, the password reported
in the returned record for each of user1 and user2 is `MyPassword123!`,
and the trace shows that exactly this password was set as the permanent
password of that user and was the password used to authenticate that
user. -/
theorem create_spa_pool_passwords_consistent
    (renv : RegionEnv) (o : SpaOracle) (rec : SpaRecord) (t : List SpaEvent)
    (hrun : create_spa_pool renv o = (Except.ok rec, t)) :
    rec.user1.password = "MyPassword123!" ∧
    rec.user2.password = "MyPassword123!" ∧
    SpaEvent.callAdminSetUserPassword rec.pool_id "testuser1" rec.user1.password true ∈ t ∧
    SpaEvent.callInitiateAuth rec.client_id "testuser1" rec.user1.password ∈ t ∧
    SpaEvent.callAdminSetUserPassword rec.pool_id "testuser2" rec.user2.password true ∈ t ∧
    SpaEvent.callInitiateAuth rec.client_id "testuser2" rec.user2.password ∈ t := by
  simp only [create_spa_pool] at hrun
  split at hrun
  · simp at hrun
  next rr hreg =>
    split at hrun
    · simp at hrun
    next pool_id t1 hp =>
      split at hrun
      · simp at hrun
      next client_id t2 hc =>
        split at hrun
        next e t3 h3 => simp at hrun
        next u3 t3 h3 =>
          split at hrun
          next e t4 h4 => simp at hrun
          next tok1 t4 h4 =>
            split at hrun
            next e t5 h5 => simp at hrun
            next u5 t5 h5 =>
              split at hrun
              next e t6 h6 => simp at hrun
              next tok2 t6 h6 =>
                obtain ⟨hrec, ht⟩ := Prod.mk.injEq .. ▸ hrun
                have hrec2 := Except.ok.inj hrec
                subst hrec2
                subst ht
                have ht3 := create_user_ok_trace o pool_id "testuser1"
                  "Temp123!" "MyPassword123!" u3 t3 h3
                have ht5 := create_user_ok_trace o pool_id "testuser2"
                  "Temp123!" "MyPassword123!" u5 t5 h5
                obtain ⟨-, ht4⟩ := Prod.mk.injEq .. ▸ h4
                obtain ⟨-, ht6⟩ := Prod.mk.injEq .. ▸ h6
                subst ht3
                subst ht5
                refine ⟨rfl, rfl, ?_, ?_, ?_, ?_⟩ <;>
                  simp [← ht4, ← ht6, authenticate_user]

/-! ## Concrete oracles and witnesses -/

/-- A fully successful provider for the m2m script: every call returns a
fixed response, and the resource-server response echoes the requested
identifier as the real API does. -/
def okM2MOracle : M2MOracle :=
  { createUserPool := fun _ _ => Except.ok { id := "us-west-2_POOL1" }
    createResourceServer := fun _ ident _ _ => Except.ok { identifier := ident }
    createUserPoolClient := fun _ =>
      Except.ok { clientId := "client-1", clientSecret := "secret-1" }
    createUserPoolDomain := fun _ _ => Except.ok ()
    adminCreateUser := fun _ _ _ => Except.ok ()
    adminSetUserPassword := fun _ _ _ _ => Except.ok ()
    timeSuffix := "12345" }

/-- The record `create_m2m_pool` returns when run against
`okM2MOracle`. -/
def okM2MResult : M2MResult :=
  { pool_id := "us-west-2_POOL1"
    client_id := "client-1"
    client_secret := "secret-1"
    domain_name := "m2m-domain-12345"
    resource_server_id := "https://api.myapp.com" }

/-- The trace `create_m2m_pool` produces when run against
`okM2MOracle`. -/
def okM2MEvents : List M2MEvent :=
  [M2MEvent.callCreateUserPool "M2MUserPool" 8,
   M2MEvent.writeFilePool { id := "us-west-2_POOL1" },
   M2MEvent.callCreateResourceServer "us-west-2_POOL1" "https://api.myapp.com"
     "MyApp API" m2mScopeDefs,
   M2MEvent.writeFileResourceServer { identifier := "https://api.myapp.com" },
   M2MEvent.callCreateUserPoolClient (m2mClientParams "us-west-2_POOL1"),
   M2MEvent.writeFileM2MClient { clientId := "client-1", clientSecret := "secret-1" },
   M2MEvent.callCreateUserPoolDomain "m2m-domain-12345" "us-west-2_POOL1",
   M2MEvent.callAdminCreateUser "us-west-2_POOL1" "m2m-test-user" "TempPass123!",
   M2MEvent.callAdminSetUserPassword "us-west-2_POOL1" "m2m-test-user"
     "TestPass123!" true,
   M2MEvent.writeFileM2MCredentials
     { userPoolId := "us-west-2_POOL1"
       resourceServerId := "https://api.myapp.com"
       clientId := "client-1"
       clientSecret := "secret-1"
       region := "us-west-2"
       scopes := ["https://api.myapp.com/read", "https://api.myapp.com/write",
                  "https://api.myapp.com/admin"] }]

/-- Witness for C2: the successful run against `okM2MOracle`. -/
theorem create_m2m_pool_resource_server_and_scopes_witness :
    okM2MResult.resource_server_id = "https://api.myapp.com" ∧
    ∃ c, M2MEvent.writeFileM2MCredentials c ∈ okM2MEvents ∧
      c.scopes = ["https://api.myapp.com/read", "https://api.myapp.com/write",
                  "https://api.myapp.com/admin"] :=
  create_m2m_pool_resource_server_and_scopes okM2MOracle okM2MResult okM2MEvents
    (by intro pid resp h
        simp only [okM2MOracle] at h
        rw [← Except.ok.inj h])
    (by rfl)

/-- Provider that fails domain creation with a non-tolerated error
code. -/
def badDomainM2MOracle : M2MOracle :=
  { okM2MOracle with
    createUserPoolDomain := fun _ _ =>
      Except.error (PyErr.clientError "LimitExceededException" "too many domains") }

/-- Witness for C3: a `LimitExceededException` during domain creation
makes the run return `none`. -/
theorem create_m2m_pool_domain_error_aborts_witness :
    (create_m2m_pool badDomainM2MOracle).1 = none :=
  create_m2m_pool_domain_error_aborts badDomainM2MOracle
    { id := "us-west-2_POOL1" } { identifier := "https://api.myapp.com" }
    { clientId := "client-1", clientSecret := "secret-1" }
    "LimitExceededException" "too many domains"
    rfl rfl rfl rfl (by decide)

/-- Provider that fails domain creation with the tolerated
`InvalidParameterException`. -/
def invalidParamDomainOracle : M2MOracle :=
  { okM2MOracle with
    createUserPoolDomain := fun _ _ =>
      Except.error (PyErr.clientError "InvalidParameterException" "domain exists") }

/-- Witness for C4: an `InvalidParameterException` during domain creation
is tolerated; the run creates the test user and returns a record. -/
theorem create_m2m_pool_domain_invalid_param_tolerated_witness :
    (∃ r, (create_m2m_pool invalidParamDomainOracle).1 = some r) ∧
    M2MEvent.callAdminCreateUser "us-west-2_POOL1" "m2m-test-user" "TempPass123!" ∈
      (create_m2m_pool invalidParamDomainOracle).2 ∧
    M2MEvent.callAdminSetUserPassword "us-west-2_POOL1" "m2m-test-user"
      "TestPass123!" true ∈ (create_m2m_pool invalidParamDomainOracle).2 :=
  create_m2m_pool_domain_invalid_param_tolerated invalidParamDomainOracle
    { id := "us-west-2_POOL1" } { identifier := "https://api.myapp.com" }
    { clientId := "client-1", clientSecret := "secret-1" } "domain exists"
    rfl rfl rfl rfl rfl rfl

/-- Provider that fails test-user creation with the tolerated
`UsernameExistsException`. -/
def userExistsOracle : M2MOracle :=
  { okM2MOracle with
    adminCreateUser := fun _ _ _ =>
      Except.error (PyErr.clientError "UsernameExistsException" "user exists") }

/-- Witness for C5: a `UsernameExistsException` during test-user creation
is tolerated; the credentials file is still written and a record
returned. -/
theorem create_m2m_pool_username_exists_tolerated_witness :
    (∃ r, (create_m2m_pool userExistsOracle).1 = some r) ∧
    ∃ c, M2MEvent.writeFileM2MCredentials c ∈ (create_m2m_pool userExistsOracle).2 :=
  create_m2m_pool_username_exists_tolerated userExistsOracle
    { id := "us-west-2_POOL1" } { identifier := "https://api.myapp.com" }
    { clientId := "client-1", clientSecret := "secret-1" } "user exists"
    rfl rfl rfl rfl rfl

/-- Witness for C8: the successful run against `okM2MOracle`. -/
theorem create_m2m_pool_client_roundtrip_witness :
    ∃ cResp, okM2MOracle.createUserPoolClient (m2mClientParams okM2MResult.pool_id) =
        Except.ok cResp ∧
      okM2MResult.client_id = cResp.clientId ∧
      okM2MResult.client_secret = cResp.clientSecret ∧
      ∀ c, M2MEvent.writeFileM2MCredentials c ∈ okM2MEvents →
        c.clientId = cResp.clientId ∧ c.clientSecret = cResp.clientSecret :=
  create_m2m_pool_client_roundtrip okM2MOracle okM2MResult okM2MEvents (by rfl)

/-- A fully successful provider for the user-pool script. -/
def okSpaOracle : SpaOracle :=
  { createUserPool := fun _ _ => Except.ok "us-east-1_POOL2"
    createUserPoolClient := fun _ _ _ _ => Except.ok "spa-client-1"
    adminCreateUser := fun _ _ _ => Except.ok ()
    adminSetUserPassword := fun _ _ _ _ => Except.ok ()
    initiateAuth := fun _ un _ => Except.ok ("token-" ++ un) }

/-- Provider that rejects the creation of `testuser2` only. -/
def user2FailsOracle : SpaOracle :=
  { okSpaOracle with
    adminCreateUser := fun _ un _ =>
      if un = "testuser2" then
        Except.error (PyErr.clientError "TooManyRequestsException" "rate limited")
      else Except.ok () }

/-- An environment whose `AWS_REGION` override is set. -/
def plainRegionEnv : RegionEnv :=
  { awsRegion := some "us-east-1", sessionRegion := Except.ok none }

/-- Witness for C6: with `testuser2` creation failing after a fully
successful prefix, `create_spa_pool` returns an error result. -/
theorem create_spa_pool_testuser2_failure_aborts_witness :
    ∃ e2, (create_spa_pool plainRegionEnv user2FailsOracle).1 = Except.error e2 :=
  create_spa_pool_testuser2_failure_aborts plainRegionEnv user2FailsOracle
    "us-east-1_POOL2" "spa-client-1" "token-testuser1"
    rfl rfl rfl rfl rfl
    ⟨PyErr.clientError "TooManyRequestsException" "rate limited", Or.inl rfl⟩

/-- The record `create_spa_pool` returns when run against `okSpaOracle`
in `plainRegionEnv`. -/
def okSpaRecord : SpaRecord :=
  { pool_id := "us-east-1_POOL2"
    client_id := "spa-client-1"
    discovery_url :=
      "https://cognito-idp.us-east-1.amazonaws.com/us-east-1_POOL2/.well-known/openid-configuration"
    region := "us-east-1"
    user1 := { username := "testuser1", password := "MyPassword123!" }
    user2 := { username := "testuser2", password := "MyPassword123!" }
    access_token_testuser1 := "token-testuser1"
    access_token_testuser2 := "token-testuser2" }

/-- The trace `create_spa_pool` produces when run against `okSpaOracle`
in `plainRegionEnv`. -/
def okSpaTrace : List SpaEvent :=
  [SpaEvent.callCreateUserPool "DemoUserPool" 8,
   SpaEvent.callCreateUserPoolClient "us-east-1_POOL2" "DemoClient" false
     ["ALLOW_USER_PASSWORD_AUTH", "ALLOW_REFRESH_TOKEN_AUTH"],
   SpaEvent.callAdminCreateUser "us-east-1_POOL2" "testuser1" "Temp123!",
   SpaEvent.callAdminSetUserPassword "us-east-1_POOL2" "testuser1"
     "MyPassword123!" true,
   SpaEvent.callInitiateAuth "spa-client-1" "testuser1" "MyPassword123!",
   SpaEvent.callAdminCreateUser "us-east-1_POOL2" "testuser2" "Temp123!",
   SpaEvent.callAdminSetUserPassword "us-east-1_POOL2" "testuser2"
     "MyPassword123!" true,
   SpaEvent.callInitiateAuth "spa-client-1" "testuser2" "MyPassword123!"]

/-- Witness for C10: the successful run against `okSpaOracle`. -/
theorem create_spa_pool_passwords_consistent_witness :
    okSpaRecord.user1.password = "MyPassword123!" ∧
    okSpaRecord.user2.password = "MyPassword123!" ∧
    SpaEvent.callAdminSetUserPassword okSpaRecord.pool_id "testuser1"
      okSpaRecord.user1.password true ∈ okSpaTrace ∧
    SpaEvent.callInitiateAuth okSpaRecord.client_id "testuser1"
      okSpaRecord.user1.password ∈ okSpaTrace ∧
    SpaEvent.callAdminSetUserPassword okSpaRecord.pool_id "testuser2"
      okSpaRecord.user2.password true ∈ okSpaTrace ∧
    SpaEvent.callInitiateAuth okSpaRecord.client_id "testuser2"
      okSpaRecord.user2.password ∈ okSpaTrace :=
  create_spa_pool_passwords_consistent plainRegionEnv okSpaOracle
    okSpaRecord okSpaTrace (by rfl)

end CognitoSetup
